import Mathlib

/-!
Verification development for the WhatsApp ingestion service
(src/parser.py, src/gcs_service.py, src/firestore_service.py, src/main.py).

The Python modules are shallowly embedded below.  Pure helpers become Lean
functions; the Firestore batch writer and the GCS client become explicit
state threading; machine words are `Nat` with explicit reduction mod 2^32.
-/

/-! ## 32-bit word arithmetic (Python `hashlib` internals, modelled on `Nat`) -/

def w32 (n : Nat) : Nat := n % 4294967296

def not32 (n : Nat) : Nat := n ^^^ 4294967295

def rotr32 (k n : Nat) : Nat := w32 ((n >>> k) ||| (n <<< (32 - k)))

def rotl32 (k n : Nat) : Nat := w32 ((n <<< k) ||| (n >>> (32 - k)))

/-! ## SHA-256 (hashlib.sha256), over byte lists -/

def sha256K : List Nat :=
  [1116352408, 1899447441, 3049323471, 3921009573, 961987163,
   1508970993, 2453635748, 2870763221, 3624381080, 310598401,
   607225278, 1426881987, 1925078388, 2162078206, 2614888103,
   3248222580, 3835390401, 4022224774, 264347078, 604807628,
   770255983, 1249150122, 1555081692, 1996064986, 2554220882,
   2821834349, 2952996808, 3210313671, 3336571891, 3584528711,
   113926993, 338241895, 666307205, 773529912, 1294757372,
   1396182291, 1695183700, 1986661051, 2177026350, 2456956037,
   2730485921, 2820302411, 3259730800, 3345764771, 3516065817,
   3600352804, 4094571909, 275423344, 430227734, 506948616,
   659060556, 883997877, 958139571, 1322822218, 1537002063,
   1747873779, 1955562222, 2024104815, 2227730452, 2361852424,
   2428436474, 2756734187, 3204031479, 3329325298]

def sha256H0 : List Nat :=
  [1779033703, 3144134277, 1013904242, 2773480762,
   1359893119, 2600822924, 528734635, 1541459225]

def be64 (n : Nat) : List Nat :=
  [n >>> 56 % 256, n >>> 48 % 256, n >>> 40 % 256, n >>> 32 % 256,
   n >>> 24 % 256, n >>> 16 % 256, n >>> 8 % 256, n % 256]

/-- Merkle–Damgård padding shared by SHA-1 and SHA-256: append 0x80, zero
bytes up to 56 mod 64, then the bit length as 8 big-endian bytes. -/
def shaPad (msg : List Nat) : List Nat :=
  let len := msg.length
  let zeros := (64 + 56 - (len + 1) % 64) % 64
  msg ++ [128] ++ List.replicate zeros 0 ++ be64 (len * 8)

def bytesToWords : List Nat → List Nat
  | b0 :: b1 :: b2 :: b3 :: rest => (((b0 * 256 + b1) * 256 + b2) * 256 + b3) :: bytesToWords rest
  | _ => []

/-- Split a byte list into successive 64-byte blocks (a trailing short block
would be kept, but every padded message is a multiple of 64 bytes). -/
def chunk64 (l : List Nat) : List (List Nat) :=
  let st := l.foldl
    (fun (st : List (List Nat) × List Nat) b =>
      let cur := st.2 ++ [b]
      if cur.length = 64 then (st.1 ++ [cur], []) else (st.1, cur))
    ([], [])
  if st.2.isEmpty then st.1 else st.1 ++ [st.2]

def sha256ExtendStep (ws : Array Nat) : Array Nat :=
  let i := ws.size
  let x15 := ws.getD (i - 15) 0
  let x2 := ws.getD (i - 2) 0
  let s0 := rotr32 7 x15 ^^^ rotr32 18 x15 ^^^ (x15 >>> 3)
  let s1 := rotr32 17 x2 ^^^ rotr32 19 x2 ^^^ (x2 >>> 10)
  ws.push (w32 (ws.getD (i - 16) 0 + s0 + ws.getD (i - 7) 0 + s1))

def sha256Extend : Nat → Array Nat → Array Nat
  | 0, ws => ws
  | k + 1, ws => sha256Extend k (sha256ExtendStep ws)

structure Sha2Regs where
  a : Nat
  b : Nat
  c : Nat
  d : Nat
  e : Nat
  f : Nat
  g : Nat
  h : Nat

def sha256Round (r : Sha2Regs) (kw : Nat × Nat) : Sha2Regs :=
  let s1 := rotr32 6 r.e ^^^ rotr32 11 r.e ^^^ rotr32 25 r.e
  let ch := (r.e &&& r.f) ^^^ (not32 r.e &&& r.g)
  let temp1 := w32 (r.h + s1 + ch + kw.1 + kw.2)
  let s0 := rotr32 2 r.a ^^^ rotr32 13 r.a ^^^ rotr32 22 r.a
  let maj := (r.a &&& r.b) ^^^ (r.a &&& r.c) ^^^ (r.b &&& r.c)
  let temp2 := w32 (s0 + maj)
  ⟨w32 (temp1 + temp2), r.a, r.b, r.c, w32 (r.d + temp1), r.e, r.f, r.g⟩

def sha256Block (hs : List Nat) (block : List Nat) : List Nat :=
  let ws := sha256Extend 48 (Array.mk (bytesToWords block))
  let init : Sha2Regs :=
    ⟨hs.getD 0 0, hs.getD 1 0, hs.getD 2 0, hs.getD 3 0,
     hs.getD 4 0, hs.getD 5 0, hs.getD 6 0, hs.getD 7 0⟩
  let r := (sha256K.zip ws.toList).foldl sha256Round init
  [w32 (hs.getD 0 0 + r.a), w32 (hs.getD 1 0 + r.b), w32 (hs.getD 2 0 + r.c),
   w32 (hs.getD 3 0 + r.d), w32 (hs.getD 4 0 + r.e), w32 (hs.getD 5 0 + r.f),
   w32 (hs.getD 6 0 + r.g), w32 (hs.getD 7 0 + r.h)]

def sha256Words (msg : List Nat) : List Nat :=
  (chunk64 (shaPad msg)).foldl sha256Block sha256H0

def hexDigit (n : Nat) : Char :=
  if n < 10 then Char.ofNat (48 + n) else Char.ofNat (87 + n)

/-- Lowercase hexadecimal rendering of one 32-bit word, as in `hexdigest()`. -/
def wordHex (n : Nat) : List Char :=
  [28, 24, 20, 16, 12, 8, 4, 0].map (fun k => hexDigit (n >>> k % 16))

def sha256_hex (msg : List Nat) : String :=
  String.mk ((sha256Words msg).map wordHex).flatten

/-! ## SHA-1 (hashlib.sha1), over byte lists -/

def sha1H0 : List Nat :=
  [1732584193, 4023233417, 2562383102, 271733878, 3285377520]

def sha1ExtendStep (ws : Array Nat) : Array Nat :=
  let i := ws.size
  ws.push (rotl32 1 (ws.getD (i - 3) 0 ^^^ ws.getD (i - 8) 0 ^^^
    ws.getD (i - 14) 0 ^^^ ws.getD (i - 16) 0))

def sha1Extend : Nat → Array Nat → Array Nat
  | 0, ws => ws
  | k + 1, ws => sha1Extend k (sha1ExtendStep ws)

def sha1F (i b c d : Nat) : Nat :=
  if i < 20 then (b &&& c) ||| (not32 b &&& d)
  else if i < 40 then b ^^^ c ^^^ d
  else if i < 60 then (b &&& c) ||| (b &&& d) ||| (c &&& d)
  else b ^^^ c ^^^ d

def sha1KOf (i : Nat) : Nat :=
  if i < 20 then 1518500249
  else if i < 40 then 1859775393
  else if i < 60 then 2400959708
  else 3395469782

structure Sha1Regs where
  a : Nat
  b : Nat
  c : Nat
  d : Nat
  e : Nat

def sha1Round (r : Sha1Regs) (iw : Nat × Nat) : Sha1Regs :=
  let temp := w32 (rotl32 5 r.a + sha1F iw.1 r.b r.c r.d + r.e + sha1KOf iw.1 + iw.2)
  ⟨temp, r.a, rotl32 30 r.b, r.c, r.d⟩

def sha1Block (hs : List Nat) (block : List Nat) : List Nat :=
  let ws := sha1Extend 64 (Array.mk (bytesToWords block))
  let init : Sha1Regs := ⟨hs.getD 0 0, hs.getD 1 0, hs.getD 2 0, hs.getD 3 0, hs.getD 4 0⟩
  let r := ((List.range 80).zip ws.toList).foldl sha1Round init
  [w32 (hs.getD 0 0 + r.a), w32 (hs.getD 1 0 + r.b), w32 (hs.getD 2 0 + r.c),
   w32 (hs.getD 3 0 + r.d), w32 (hs.getD 4 0 + r.e)]

def sha1Words (msg : List Nat) : List Nat :=
  (chunk64 (shaPad msg)).foldl sha1Block sha1H0

def sha1_hex (msg : List Nat) : String :=
  String.mk ((sha1Words msg).map wordHex).flatten

/-! ## UTF-8 encoding (Python `str.encode('utf-8')`) -/

def utf8Char (c : Char) : List Nat :=
  let n := c.toNat
  if n < 128 then [n]
  else if n < 2048 then [192 ||| (n >>> 6), 128 ||| (n % 64)]
  else if n < 65536 then
    [224 ||| (n >>> 12), 128 ||| ((n >>> 6) % 64), 128 ||| (n % 64)]
  else
    [240 ||| (n >>> 18), 128 ||| ((n >>> 12) % 64), 128 ||| ((n >>> 6) % 64), 128 ||| (n % 64)]

def str_utf8 (s : String) : List Nat := (s.data.map utf8Char).flatten

/-! ## Python datetime fragments used by the service -/

/-- A naive `datetime.datetime` value.  The parser only ever builds values
with `second = 0` and `microsecond = 0` (strptime format `%d/%m/%Y %H:%M`). -/
structure PyDateTime where
  year : Nat
  month : Nat
  day : Nat
  hour : Nat
  minute : Nat
  second : Nat
  microsecond : Nat
deriving DecidableEq, Repr

def padNum (w n : Nat) : String :=
  let s := toString n
  String.mk (List.replicate (w - s.length) '0') ++ s

/-- `datetime.isoformat()`: `YYYY-MM-DDTHH:MM:SS`, with `.ffffff` appended
only when the microsecond field is nonzero. -/
def isoformat (t : PyDateTime) : String :=
  padNum 4 t.year ++ "-" ++ padNum 2 t.month ++ "-" ++ padNum 2 t.day ++ "T" ++
    padNum 2 t.hour ++ ":" ++ padNum 2 t.minute ++ ":" ++ padNum 2 t.second ++
    (if t.microsecond = 0 then "" else "." ++ padNum 6 t.microsecond)

/-- Python string slicing `s[:n]` (code-point truncation). -/
def str_take (s : String) (n : Nat) : String := String.mk (s.data.take n)

/-! ## Identity derivers (src/firestore_service.py lines 21-33) -/

/-- `get_group_id`: `hashlib.sha1(group_name.encode('utf-8')).hexdigest()`. -/
def get_group_id (group_name : String) : String :=
  sha1_hex (str_utf8 group_name)

/-- `get_message_id`: sha256 hexdigest of
`f"{timestamp.isoformat()}-{author}-{text_preview[:50]}"` encoded as UTF-8. -/
def get_message_id (timestamp : PyDateTime) (author : String) (text_preview : String) : String :=
  let preview := str_take text_preview 50
  let ts_str := isoformat timestamp
  let unique_string := ts_str ++ "-" ++ author ++ "-" ++ preview
  sha256_hex (str_utf8 unique_string)

/-! ## String helpers

Structurally recursive equivalents of the Python string operations the
service uses (`split`, `startswith`/`endswith`, `lower`, `int`, emptiness),
over the character list underlying `String`. -/

def splitOnCharAux (sep : Char) : List Char → List Char → List String
  | [], acc => [String.mk acc.reverse]
  | c :: rest, acc =>
    if c == sep then String.mk acc.reverse :: splitOnCharAux sep rest []
    else splitOnCharAux sep rest (c :: acc)

def strSplitOnChar (sep : Char) (s : String) : List String :=
  splitOnCharAux sep s.data []

def strEndsWith (s post : String) : Bool := post.data.isSuffixOf s.data

def strStartsWith (s pre : String) : Bool := List.isPrefixOf pre.data s.data

def strToLower (s : String) : String := String.mk (s.data.map Char.toLower)

def strIsEmpty (s : String) : Bool := s.data.isEmpty

/-- `int(s)` on a nonempty all-digit string, `None` otherwise (the behavior
of `str.toNat?` on the digit groups fed to it here). -/
def strToNatQ (s : String) : Option Nat :=
  if s.data.isEmpty then none
  else if s.data.all Char.isDigit then
    some (s.data.foldl (fun acc c => acc * 10 + (c.toNat - 48)) 0)
  else none

/-! ## Chat parser (src/parser.py)

Python's `re` patterns are compiled here into equivalent deterministic
matchers.  Each compilation is justified next to its definition by analysing
the pattern's backtracking behaviour. -/

/-- Python `\s` on the ASCII range (the chat format only uses these). -/
def isSpaceChar (c : Char) : Bool :=
  c == ' ' || c == '\t' || c == '\n' || c == '\x0d' || c == '\x0b' || c == '\x0c'

/-- Python `str.strip()` restricted to the whitespace characters above. -/
def pyStrip (s : String) : String :=
  String.mk (((s.data.dropWhile isSpaceChar).reverse.dropWhile isSpaceChar).reverse)

/-- Run of digits whose length must lie in `[lo, hi]`.  This is the exact
semantics of `\d{lo,hi}` when the next pattern character is not a digit:
the greedy run cannot backtrack past a digit, so the run length itself must
fit the bounds. -/
def spanDigits (lo hi : Nat) (cs : List Char) : Option (List Char × List Char) :=
  let p := cs.span Char.isDigit
  if lo ≤ p.1.length ∧ p.1.length ≤ hi then some p else none

def expectChar (c : Char) : List Char → Option (List Char)
  | d :: rest => if d == c then some rest else none
  | [] => none

/-- One `\s` character. -/
def expectSpace : List Char → Option (List Char)
  | d :: rest => if isSpaceChar d then some rest else none
  | [] => none

/-- Common head of both message regexes:
`^(?P<date>\d{1,2}/\d{1,2}/\d{2,4})\s(?P<time>\d{1,2}:\d{2})\s-\s`.
Returns (date group, time group, remaining characters).  Minute is `\d{2}`
followed by `\s`: a longer digit run cannot match (no backtracking helps),
so the run must be exactly two digits. -/
def matchDateTimeDash (cs : List Char) : Option (String × String × List Char) := do
  let (day, r) ← spanDigits 1 2 cs
  let r ← expectChar '/' r
  let (mon, r) ← spanDigits 1 2 r
  let r ← expectChar '/' r
  let (year, r) ← spanDigits 2 4 r
  let r ← expectSpace r
  let (hh, r) ← spanDigits 1 2 r
  let r ← expectChar ':' r
  let (mm, r) ← spanDigits 2 2 r
  let r ← expectSpace r
  let r ← expectChar '-' r
  let r ← expectSpace r
  pure (String.mk (day ++ '/' :: mon ++ '/' :: year),
        String.mk (hh ++ ':' :: mm), r)

/-- `WHATSAPP_MESSAGE_REGEX.match(line)`:
`^date\stime\s-\s(?P<author>[^:]+):\s(?P<message>.+)` with `re.DOTALL`.
`[^:]+` is greedy but cannot cross a colon, so the author group is exactly
the (nonempty) text before the first colon of the remainder, which must be
followed by one whitespace character and a nonempty message. -/
def matchWhatsAppMessage (line : String) : Option (String × String × String × String) := do
  let (dateS, timeS, r) ← matchDateTimeDash line.data
  let p := r.span (fun c => !(c == ':'))
  if p.1.isEmpty then none
  else do
    let r ← expectChar ':' p.2
    let r ← expectSpace r
    if r.isEmpty then none
    else pure (dateS, timeS, String.mk p.1, String.mk r)

/-- `SYSTEM_MESSAGE_REGEX.match(line)`:
`^date\stime\s-\s(?P<message>(?!.+:).+)`.  The negative lookahead `(?!.+:)`
fails exactly when some colon occurs at index ≥ 1 of the remainder; the
group then takes the whole (nonempty) remainder. -/
def matchSystemMessage (line : String) : Option (String × String × String) := do
  let (dateS, timeS, r) ← matchDateTimeDash line.data
  if r.isEmpty then none
  else if (r.drop 1).any (fun c => c == ':') then none
  else pure (dateS, timeS, String.mk r)

def MEDIA_PLACEHOLDERS : List String :=
  ["(arquivo anexado)", "<Arquivo de mídia oculto>", "<Mídia oculta>"]

/-- Substring containment, Python's `needle in hay`. -/
def containsSub (hay needle : String) : Bool :=
  subSearch hay.data needle.data
where subSearch : List Char → List Char → Bool
  | [], n => n.isEmpty
  | c :: r, n => n.isPrefixOf (c :: r) || subSearch r n

/-- Python `\w` on the ASCII range. -/
def isWordChar (c : Char) : Bool := c.isAlphanum || c == '_'

/-- One attempt of the media-filename pattern
`((?:IMG|VID|PTT|DOC|STK)-\d{8}-WA\d{4,}\.\w+)` (IGNORECASE) anchored at the
head of `cs`; returns the matched characters (original casing, group 0).
`\d{8}` is a fixed count, and `\d{4,}` and `\w+` are greedy runs followed by
non-run characters, so no backtracking arises. -/
def tryMediaMatch (cs : List Char) : Option (List Char) :=
  match cs with
  | p1 :: p2 :: p3 :: dash :: rest =>
    if ([p1.toUpper, p2.toUpper, p3.toUpper] ∈
          [['I','M','G'], ['V','I','D'], ['P','T','T'], ['D','O','C'], ['S','T','K']])
        && dash == '-' then
      let d8 := rest.take 8
      if d8.length == 8 && d8.all Char.isDigit then
        match rest.drop 8 with
        | dash2 :: wc :: ac :: rest2 =>
          if dash2 == '-' && wc.toUpper == 'W' && ac.toUpper == 'A' then
            let p := rest2.span Char.isDigit
            if p.1.length ≥ 4 then
              match p.2 with
              | dot :: rest3 =>
                if dot == '.' then
                  let q := rest3.span isWordChar
                  if q.1.length ≥ 1 then
                    some (p1 :: p2 :: p3 :: '-' :: d8 ++ '-' :: wc :: ac :: p.1 ++ '.' :: q.1)
                  else none
                else none
              | [] => none
            else none
          else none
        | _ => none
      else none
    else none
  | _ => none

def mediaSearch : List Char → Option String
  | [] => none
  | c :: rest =>
    match tryMediaMatch (c :: rest) with
    | some m => some (String.mk m)
    | none => mediaSearch rest

/-- `extract_media_filename` (src/parser.py lines 119-129): leftmost search
of the media filename pattern, returning group 0. -/
def extract_media_filename (text : String) : Option String :=
  mediaSearch text.data

/-- Days per month as validated by `datetime` (proleptic Gregorian). -/
def daysInMonth (year month : Nat) : Nat :=
  if month = 2 then
    if year % 4 = 0 ∧ (year % 100 ≠ 0 ∨ year % 400 = 0) then 29 else 28
  else if month ∈ [4, 6, 9, 11] then 30 else 31

/-- `_parse_timestamp` (src/parser.py lines 29-35):
`datetime.strptime(f"{date_str} {time_str}", "%d/%m/%Y %H:%M")`, `None` on
`ValueError`.  CPython's `%Y` matches exactly four digits, so two- or
three-digit years (allowed by the capture `\d{2,4}`) fail to parse; value
validation (month range, day-of-month range, hour, minute) mirrors the
`datetime` constructor. -/
def _parse_timestamp (date_str time_str : String) : Option PyDateTime :=
  match strSplitOnChar '/' date_str, strSplitOnChar ':' time_str with
  | [ds, ms, ys], [hs, mins] =>
    if ys.length ≠ 4 then none
    else
      match strToNatQ ds, strToNatQ ms, strToNatQ ys, strToNatQ hs, strToNatQ mins with
      | some d, some m, some y, some hh, some mi =>
        if 1 ≤ y ∧ 1 ≤ m ∧ m ≤ 12 ∧ 1 ≤ d ∧ d ≤ daysInMonth y m ∧ hh ≤ 23 ∧ mi ≤ 59 then
          some ⟨y, m, d, hh, mi, 0, 0⟩
        else none
      | _, _, _, _, _ => none
  | _, _ => none

/-- A parsed message dict as built by the parser. -/
structure Msg where
  timestamp_utc : PyDateTime
  author : String
  message_text : String
  is_system_message : Bool
  has_media : Bool
  media_filename : Option String
deriving DecidableEq, Repr

/-- `os.path.basename` (POSIX separator). -/
def basename (p : String) : String :=
  match (strSplitOnChar '/' p).getLast? with
  | some b => b
  | none => p

def groupNameLiteral : List Char := "Conversa do WhatsApp com ".data

/-- Lazy group of `(.+?)\.txt`: consume the shortest nonempty run of
characters after which `.txt` follows. -/
def groupScan : List Char → List Char → Option (List Char)
  | acc, rest =>
    if acc.length ≥ 1 ∧ ".txt".data.isPrefixOf rest then some acc.reverse
    else
      match rest with
      | [] => none
      | c :: r => groupScan (c :: acc) r

/-- `GROUP_NAME_REGEX.search`: leftmost occurrence of the literal prefix,
then the lazy group above; on failure at one start position the search
advances to the next. -/
def groupNameSearchFrom : List Char → Option String
  | [] => none
  | c :: rest =>
    if groupNameLiteral.isPrefixOf (c :: rest) then
      match groupScan [] ((c :: rest).drop groupNameLiteral.length) with
      | some g => some (String.mk g)
      | none => groupNameSearchFrom rest
    else groupNameSearchFrom rest

/-- Fold state of the parsing loop.  Python mutates one dict
(`current_message_data`) that may already have been appended to `messages`;
`aliasCount` records how many times the dict currently being built has been
appended, so that the real output list is
`committed ++ List.replicate aliasCount cur` at every point. -/
structure ParseAcc where
  committed : List Msg
  cur : Option Msg
  aliasCount : Nat

/-- One iteration of the `for line in f` loop of `parse_whatsapp_chat`
(src/parser.py lines 53-107).  Note the source appends
`current_message_data` to `messages` as soon as the authored-message regex
matches, before the timestamp is validated; on a failed timestamp the same
dict keeps accumulating (it is mutated in place, aliased with the list
entry) and will be appended again at the next flush. -/
def parse_line_step (acc : ParseAcc) (rawLine : String) : ParseAcc :=
  let line := pyStrip rawLine
  if strIsEmpty line then acc
  else
    match matchWhatsAppMessage line with
    | some (dateS, timeS, authorS, messageS) =>
      let acc1 :=
        match acc.cur with
        | some _ => { acc with aliasCount := acc.aliasCount + 1 }
        | none => acc
      match _parse_timestamp dateS timeS with
      | none =>
        match acc1.cur with
        | some c =>
          { acc1 with cur := some { c with message_text := c.message_text ++ "\n" ++ line } }
        | none => acc1
      | some ts =>
        let flushed :=
          match acc1.cur with
          | some c => acc1.committed ++ List.replicate acc1.aliasCount c
          | none => acc1.committed
        { committed := flushed
          cur := some
            { timestamp_utc := ts
              author := pyStrip authorS
              message_text := pyStrip messageS
              is_system_message := false
              has_media := MEDIA_PLACEHOLDERS.any (fun p => containsSub messageS p)
              media_filename := extract_media_filename messageS }
          aliasCount := 0 }
    | none =>
      match acc.cur with
      | some c =>
        let c1 := { c with message_text := c.message_text ++ "\n" ++ line }
        let c2 :=
          if c1.has_media then c1
          else { c1 with has_media := MEDIA_PLACEHOLDERS.any (fun p => containsSub line p) }
        let c3 :=
          if c2.media_filename.isSome then c2
          else { c2 with media_filename := extract_media_filename line }
        { acc with cur := some c3 }
      | none =>
        match matchSystemMessage line with
        | some (dateS, timeS, messageS) =>
          match _parse_timestamp dateS timeS with
          | some ts =>
            { acc with committed := acc.committed ++
                [{ timestamp_utc := ts
                   author := "System"
                   message_text := pyStrip messageS
                   is_system_message := true
                   has_media := false
                   media_filename := none }] }
          | none => acc
        | none => acc

/-- `parse_whatsapp_chat` (src/parser.py lines 37-117), with the file
supplied as its list of lines.  The trailing
`if current_message_data: messages.append(...)` adds one more copy of the
dict being built on top of the copies already appended. -/
def parse_whatsapp_chat (file_path : String) (fileLines : List String) : String × List Msg :=
  let file_name := basename file_path
  let group_name :=
    match groupNameSearchFrom file_name.data with
    | some g => pyStrip g
    | none => "Nome de Grupo Desconhecido"
  let fin := fileLines.foldl parse_line_step ⟨[], none, 0⟩
  let msgs := fin.committed ++
    (match fin.cur with
     | some c => List.replicate (fin.aliasCount + 1) c
     | none => [])
  (group_name, msgs)

/-! ## Blob store (src/gcs_service.py)

The GCS client is modelled as explicit state: reachability flags, the local
filesystem, the set of stored blob keys, and counters for upload-function
invocations and for physical transfers. -/

structure GcsState where
  clientOk : Bool
  apiFails : Bool
  localFiles : List (String × List Nat)
  blobs : List (String × String)
  calls : Nat
  transfers : Nat
deriving DecidableEq, Repr

/-- `calculate_file_hash` (src/gcs_service.py lines 18-25): the SHA-256
hexdigest of the file's bytes.  The source feeds the file to the hash in
4096-byte chunks; incremental update over chunks computes the same digest
as hashing the concatenated content, which is what is modelled here. -/
def calculate_file_hash (content : List Nat) : String := sha256_hex content

/-- Extension as returned by `os.path.splitext` on a basename: from the last
dot, unless every character before that dot is itself a dot. -/
def splitextExt (name : String) : String :=
  let cs := name.data
  match cs.reverse.findIdx? (fun c => c == '.') with
  | none => ""
  | some ri =>
    let i := cs.length - 1 - ri
    if (cs.take i).all (fun c => c == '.') then "" else String.mk (cs.drop i)

/-- Modelled subset of the CPython `mimetypes` table; `guess_type` is a pure
lookup of the lowercased extension.  The source then defaults a missing
type to `application/octet-stream` (`media_type or 'application/octet-stream'`),
which is folded into this definition. -/
def mimetypes_table : List (String × String) :=
  [(".jpg", "image/jpeg"), (".jpeg", "image/jpeg"), (".png", "image/png"),
   (".gif", "image/gif"), (".webp", "image/webp"), (".mp4", "video/mp4"),
   (".3gp", "video/3gpp"), (".avi", "video/x-msvideo"), (".mp3", "audio/mpeg"),
   (".ogg", "audio/ogg"), (".wav", "audio/x-wav"), (".pdf", "application/pdf"),
   (".txt", "text/plain"), (".doc", "application/msword"), (".zip", "application/zip")]

def guess_media_type (filename : String) : String :=
  match mimetypes_table.lookup (strToLower (splitextExt filename)) with
  | some t => t
  | none => "application/octet-stream"

/-- The two exception classes the source distinguishes in its handlers:
`GoogleAPICallError` (and the client-not-initialized early return), and
`FileNotFoundError`. -/
inductive UploadErr
  | storageError
  | notFoundError
deriving DecidableEq, Repr

/-- `upload_media_to_gcs` (src/gcs_service.py lines 27-96).  Returns the
outcome together with the updated store state.  The Python function returns
`(None, None, None)` on every failure path (see `result_triple`); the
`Except` layer records which handler fired, mirroring the distinct
`except` branches of the source. -/
def upload_media_to_gcs (st : GcsState) (file_path bucket_name : String)
    (destination_blob_name : Option String) :
    Except UploadErr (String × String × String) × GcsState :=
  let st := { st with calls := st.calls + 1 }
  if st.clientOk = false then
    (Except.error UploadErr.storageError, st)
  else
    match st.localFiles.lookup file_path with
    | none => (Except.error UploadErr.notFoundError, st)
    | some content =>
      let file_hash := calculate_file_hash content
      let original_filename := basename file_path
      let media_type := guess_media_type original_filename
      let blob_name :=
        match destination_blob_name with
        | some d => d
        | none => file_hash ++ splitextExt original_filename
      let gcs_uri := "gs://" ++ bucket_name ++ "/" ++ blob_name
      if st.apiFails then
        (Except.error UploadErr.storageError, st)
      else if (bucket_name, blob_name) ∈ st.blobs then
        (Except.ok (gcs_uri, file_hash, media_type), st)
      else
        (Except.ok (gcs_uri, file_hash, media_type),
         { st with blobs := (bucket_name, blob_name) :: st.blobs,
                   transfers := st.transfers + 1 })

/-- The `(gcs_uri, file_hash, media_type)` tuple actually handed back to
Python callers: three `None`s on failure, three values on success. -/
def result_triple (r : Except UploadErr (String × String × String)) :
    Option String × Option String × Option String :=
  match r with
  | Except.error _ => (none, none, none)
  | Except.ok (u, h, m) => (some u, some h, some m)

/-! ## Message ledger writer (src/firestore_service.py lines 54-149) -/

structure MediaRef where
  original_filename : String
  gcs_uri : String
  hash_sha256 : String
  media_type : String
deriving DecidableEq, Repr

/-- The document written for one message (`message_data` dict). -/
structure MessageDoc where
  timestamp_utc : PyDateTime
  author : String
  message_text : String
  is_system_message : Bool
  has_media : Bool
  nlp_status : String
  media_analysis_status : String
  media : Option MediaRef
deriving DecidableEq, Repr

structure StagedWrite where
  doc_id : String
  data : MessageDoc
deriving DecidableEq, Repr

def derive_id (m : Msg) : String :=
  get_message_id m.timestamp_utc m.author m.message_text

/-- Python's `msg['media_filename'] in media_files_map`: a `None` filename is
never a key of a str-keyed dict. -/
def key_mem (o : Option String) (map : List (String × String)) : Bool :=
  match o with
  | some k => (map.lookup k).isSome
  | none => false

/-- Media handling for one staged message (src/firestore_service.py lines
108-132): on upload success attach the `media` sub-document; on a falsy
`gcs_uri` set `media_analysis_status` to `upload_failed` and attach
nothing. -/
def resolve_media (group_id gcs_bucket_name : String) (media_files_map : List (String × String))
    (message_id : String) (msg : Msg) (gcs : GcsState) (base : MessageDoc) :
    MessageDoc × GcsState :=
  if msg.has_media && key_mem msg.media_filename media_files_map then
    let media_filename := msg.media_filename.getD ""
    let media_local_path := (media_files_map.lookup media_filename).getD ""
    let destination_blob :=
      "whatsapp/groups/" ++ group_id ++ "/messages/" ++ message_id ++ "/" ++ media_filename
    let r := upload_media_to_gcs gcs media_local_path gcs_bucket_name (some destination_blob)
    match r.1 with
    | Except.ok (uri, h, mt) =>
      ({ base with media := some ⟨media_filename, uri, h, mt⟩ }, r.2)
    | Except.error _ =>
      ({ base with media_analysis_status := "upload_failed" }, r.2)
  else (base, gcs)

/-- Fold state of the message loop: the current batch, the batches already
committed, every staged write in order, `saved_count`, and the blob-store
state. -/
structure SaveAcc where
  batch : List StagedWrite
  commits : List (List StagedWrite)
  staged : List StagedWrite
  saved_count : Nat
  gcs : GcsState
deriving Repr

/-- The `message_data` dict as first assembled (src/firestore_service.py
lines 98-106), before any media handling. -/
def base_message_doc (msg : Msg) : MessageDoc :=
  { timestamp_utc := msg.timestamp_utc
    author := msg.author
    message_text := msg.message_text
    is_system_message := msg.is_system_message
    has_media := msg.has_media
    nlp_status := "pending"
    media_analysis_status := if msg.has_media then "pending" else "not_applicable"
    media := none }

/-- One iteration of `for msg in messages` (src/firestore_service.py lines
86-140): skip when the derived ID is already persisted (the loaded set is
never extended during the loop), otherwise build the document, resolve
media, stage the write, and commit the batch when `saved_count % 499 == 0`. -/
def save_message_step (group_id gcs_bucket_name : String)
    (media_files_map : List (String × String)) (existing_message_ids : List String)
    (acc : SaveAcc) (msg : Msg) : SaveAcc :=
  let message_id := derive_id msg
  if message_id ∈ existing_message_ids then acc
  else
    let md := resolve_media group_id gcs_bucket_name media_files_map message_id msg acc.gcs
      (base_message_doc msg)
    let w : StagedWrite := ⟨message_id, md.1⟩
    let batch := acc.batch ++ [w]
    let saved := acc.saved_count + 1
    if saved % 499 = 0 then
      { batch := [], commits := acc.commits ++ [batch], staged := acc.staged ++ [w],
        saved_count := saved, gcs := md.2 }
    else
      { batch := batch, commits := acc.commits, staged := acc.staged ++ [w],
        saved_count := saved, gcs := md.2 }

structure SaveResult where
  staged : List StagedWrite
  commits : List (List StagedWrite)
  saved_count : Nat
  gcs : GcsState
deriving Repr

/-- Loop and final commit of `process_and_save_messages`: the trailing batch
is committed exactly when `saved_count > 0`.  The group-metadata upsert that
precedes the loop only touches the group document (failures there are
logged and non-fatal) and has no effect on the message writes modelled
here. -/
def save_run (group_name : String) (messages : List Msg)
    (media_files_map : List (String × String)) (gcs_bucket_name : String)
    (existing_message_ids : List String) (gcs : GcsState) : SaveResult :=
  let group_id := get_group_id group_name
  let fin := messages.foldl
    (save_message_step group_id gcs_bucket_name media_files_map existing_message_ids)
    ⟨[], [], [], 0, gcs⟩
  { staged := fin.staged
    commits := if fin.saved_count > 0 then fin.commits ++ [fin.batch] else fin.commits
    saved_count := fin.saved_count
    gcs := fin.gcs }

/-- `process_and_save_messages` (src/firestore_service.py lines 54-149):
raises `ConnectionError` when the Firestore client was never initialized,
otherwise runs the save loop.  `existing_message_ids` is the set streamed
from the group's `messages` collection at entry. -/
def process_and_save_messages (dbOk : Bool) (group_name : String) (messages : List Msg)
    (media_files_map : List (String × String)) (gcs_bucket_name : String)
    (existing_message_ids : List String) (gcs : GcsState) : Except String SaveResult :=
  if dbOk then
    Except.ok (save_run group_name messages media_files_map gcs_bucket_name
      existing_message_ids gcs)
  else Except.error "ConnectionError"

/-! ## Ingestion orchestrator (src/main.py lines 33-107) -/

inductive RunStatus
  | running
  | completed
  | error
deriving DecidableEq, Repr

/-- A file in the unpacked temporary directory.  `textLines` is the content
read as text lines (used when the file is parsed as the chat export);
`bytes` is the raw content (used when it is uploaded as media). -/
structure TempFile where
  path : String
  textLines : List String
  bytes : List Nat
deriving Repr

/-- Step 1 of the background task (src/main.py lines 49-56): the last
`.txt` file wins; every other file whose basename does not start with a
dot is collected as media, in walk order. -/
def find_chat_and_media (files : List TempFile) : Option String × List String :=
  files.foldl
    (fun acc f =>
      if strEndsWith (basename f.path) ".txt" then (some f.path, acc.2)
      else if strStartsWith (basename f.path) "." then acc
      else (acc.1, acc.2 ++ [f.path]))
    (none, [])

inductive PyCallErr
  | typeError
deriving DecidableEq, Repr

structure MediaMeta where
  gcs_uri : String
  hash_sha256 : String
  media_type : String
deriving DecidableEq, Repr

/-- src/main.py line 86 invokes
`process_and_save_messages(group_name, parsed_messages, media_metadata_map)`
with three positional arguments, while the definition in
src/firestore_service.py line 54 declares four required positional
parameters (`group_name, messages, media_files_map, gcs_bucket_name`, none
with a default).  In Python the call itself raises
`TypeError: process_and_save_messages() missing 1 required positional
argument: 'gcs_bucket_name'` before the callee body ever runs. -/
def call_save_with_three_args : Except PyCallErr Unit :=
  Except.error PyCallErr.typeError

/-- `background_processing_task` (src/main.py lines 33-107), returning the
ordered list of statuses recorded via `log_system_event` for the run's task
ID, together with the final blob-store state.  Every exception inside the
`try` block is caught and recorded as `error`. -/
def background_processing_task (files : List TempFile) (gcs_bucket_name : String)
    (gcs : GcsState) : List RunStatus × GcsState :=
  let found := find_chat_and_media files
  match found.1 with
  | none => ([RunStatus.running, RunStatus.error], gcs)
  | some txt_file_path =>
    let chatLines :=
      ((files.find? (fun f => f.path == txt_file_path)).map TempFile.textLines).getD []
    let parsed := parse_whatsapp_chat txt_file_path chatLines
    if strIsEmpty parsed.1 || parsed.2.isEmpty then
      ([RunStatus.running, RunStatus.error], gcs)
    else
      let up := found.2.foldl
        (fun (acc : List (String × MediaMeta) × GcsState) media_path =>
          let r := upload_media_to_gcs acc.2 media_path gcs_bucket_name none
          match r.1 with
          | Except.ok (uri, h, mt) =>
            (acc.1 ++ [(basename media_path, ⟨uri, h, mt⟩)], r.2)
          | Except.error _ => (acc.1, r.2))
        ([], gcs)
      match call_save_with_three_args with
      | Except.ok _ => ([RunStatus.running, RunStatus.completed], up.2)
      | Except.error _ => ([RunStatus.running, RunStatus.error], up.2)

/-! ## Sample values used by witnesses and counterexamples -/

def sampleTime : PyDateTime := ⟨2024, 5, 17, 12, 30, 0, 0⟩

def sampleMsg : Msg := ⟨sampleTime, "Alice", "oi", false, false, none⟩

def mediaMsg : Msg :=
  ⟨sampleTime, "Bob", "IMG-20240101-WA0001.jpg (arquivo anexado)", false, true,
   some "IMG-20240101-WA0001.jpg"⟩

/-- A reachable blob-store backend with an empty bucket. -/
def gcsIdle : GcsState := ⟨true, false, [], [], 0, 0⟩

/-- A backend whose client failed to initialize (unreachable). -/
def gcsDown : GcsState := ⟨false, false, [], [], 0, 0⟩

def sampleChatFile : TempFile :=
  { path := "/tmp/t/Conversa do WhatsApp com Grupo.txt"
    textLines := ["01/01/2024 10:00 - Alice: Oi"]
    bytes := [] }

/-! ## C3: message IDs -/

/-- C3: `get_message_id` is the SHA-256 hexdigest of the canonical string
`isoformat(timestamp) ++ "-" ++ author ++ "-" ++ text[:50]`; being a pure
function it is deterministic, and two texts agreeing on their first 50 code
points yield the same ID. -/
theorem message_id_hash_and_truncation (t : PyDateTime) (a s₁ s₂ : String)
    (h : str_take s₁ 50 = str_take s₂ 50) :
    get_message_id t a s₁
      = sha256_hex (str_utf8 (isoformat t ++ "-" ++ a ++ "-" ++ str_take s₁ 50))
    ∧ get_message_id t a s₁ = get_message_id t a s₂ := by
  refine ⟨rfl, ?_⟩
  simp only [get_message_id, h]

/-- Witness for C3 at two concrete 51-character texts differing only in the
51st character. -/
theorem message_id_truncation_witness :
    str_take (String.mk (List.replicate 50 'a' ++ ['X'])) 50
        = str_take (String.mk (List.replicate 50 'a' ++ ['Y'])) 50
    ∧ get_message_id sampleTime "Alice" (String.mk (List.replicate 50 'a' ++ ['X']))
        = get_message_id sampleTime "Alice" (String.mk (List.replicate 50 'a' ++ ['Y'])) :=
  ⟨by decide,
   (message_id_hash_and_truncation sampleTime "Alice"
      (String.mk (List.replicate 50 'a' ++ ['X']))
      (String.mk (List.replicate 50 'a' ++ ['Y'])) (by decide)).2⟩

/-! ## C9: upload contract -/

/-- C9: the blob upload reports a storage failure when the backend is
unreachable (client never initialized, or the API raising), a not-found
failure when the local path does not exist, and otherwise returns a complete
`(uri, hash, mediaType)` triple; the tuple visible to Python callers is
never partial. -/
theorem upload_error_taxonomy (st : GcsState) (p b : String) (d : Option String) :
    (st.clientOk = false →
      (upload_media_to_gcs st p b d).1 = Except.error UploadErr.storageError)
    ∧ (st.clientOk = true → st.localFiles.lookup p = none →
      (upload_media_to_gcs st p b d).1 = Except.error UploadErr.notFoundError)
    ∧ (st.clientOk = true → st.apiFails = true → (st.localFiles.lookup p).isSome = true →
      (upload_media_to_gcs st p b d).1 = Except.error UploadErr.storageError)
    ∧ (st.clientOk = true → st.apiFails = false → (st.localFiles.lookup p).isSome = true →
      ∃ u h m, (upload_media_to_gcs st p b d).1 = Except.ok (u, h, m))
    ∧ (result_triple (upload_media_to_gcs st p b d).1 = (none, none, none)
      ∨ ∃ u h m, result_triple (upload_media_to_gcs st p b d).1 = (some u, some h, some m)) := by
  obtain ⟨co, af, lf, bl, ca, tr⟩ := st
  refine ⟨?_, ?_, ?_, ?_, ?_⟩
  · intro h
    subst h
    rfl
  · intro h hl
    subst h
    simp only [upload_media_to_gcs] at *
    simp [hl]
  · intro h ha hs
    subst h
    subst ha
    obtain ⟨c, hc⟩ := Option.isSome_iff_exists.mp hs
    simp only [upload_media_to_gcs] at *
    simp [hc]
  · intro h ha hs
    subst h
    subst ha
    obtain ⟨c, hc⟩ := Option.isSome_iff_exists.mp hs
    simp only [upload_media_to_gcs]
    simp only [hc]
    rw [if_neg (by simp : ¬ (true = false)), if_neg (by simp : ¬ (false = true))]
    split
    · exact ⟨_, _, _, rfl⟩
    · exact ⟨_, _, _, rfl⟩
  · rcases hr : (upload_media_to_gcs ⟨co, af, lf, bl, ca, tr⟩ p b d).1 with e | ⟨u, hsh, mt⟩
    · left
      simp [result_triple, hr]
    · right
      exact ⟨u, hsh, mt, by simp [result_triple, hr]⟩

/-- Witness for C9: an unreachable backend yields the storage failure. -/
theorem upload_error_taxonomy_witness :
    (upload_media_to_gcs gcsDown "f.jpg" "bucket" none).1
      = Except.error UploadErr.storageError :=
  (upload_error_taxonomy gcsDown "f.jpg" "bucket" none).1 rfl

/-! ## C1: orchestrator terminal status -/

/-- C1 (code bug): on a submission whose chat file is found and parses to a
nonempty message list, the orchestrator still records `error`, never
`completed`: the save step is invoked with three positional arguments while
its definition requires four, so it raises `TypeError` inside the `try`
block.  The first two conjuncts check that this run really reaches the save
step (chat file located, one message parsed). -/
theorem ingestion_run_records_error :
    (find_chat_and_media [sampleChatFile]).1 = some sampleChatFile.path
    ∧ (parse_whatsapp_chat sampleChatFile.path sampleChatFile.textLines).2.length = 1
    ∧ (background_processing_task [sampleChatFile] "bucket" gcsIdle).1
        = [RunStatus.running, RunStatus.error] := by
  exact ⟨rfl, rfl, rfl⟩

/-! ## C5: failed-timestamp lines in the parser -/

/-- C5 (code bug): a line matching the authored-message pattern whose
date fails to parse (month 99) is appended as a newline-separated
continuation of the accumulated message and starts no new message, but the
accumulated message was already flushed to the output list before the
timestamp check, and the same (mutated) dict is appended once more at end
of input: the message comes out twice. -/
theorem failed_timestamp_line_duplicates_message :
    parse_whatsapp_chat "Conversa do WhatsApp com G.txt"
      ["01/01/2024 10:00 - Alice: oi", "99/99/2024 10:00 - Bob: spurious"]
    = ("G",
       [⟨⟨2024, 1, 1, 10, 0, 0, 0⟩, "Alice", "oi\n99/99/2024 10:00 - Bob: spurious",
         false, false, none⟩,
        ⟨⟨2024, 1, 1, 10, 0, 0, 0⟩, "Alice", "oi\n99/99/2024 10:00 - Bob: spurious",
         false, false, none⟩]) := by
  rfl

/-! ## Ledger-writer fold lemmas shared by several claims -/

theorem save_step_skip (gid b : String) (map : List (String × String))
    (ex : List String) (acc : SaveAcc) (m : Msg) (h : derive_id m ∈ ex) :
    save_message_step gid b map ex acc m = acc := by
  simp [save_message_step, h]

theorem save_step_new (gid b : String) (map : List (String × String))
    (ex : List String) (acc : SaveAcc) (m : Msg) (h : derive_id m ∉ ex) :
    save_message_step gid b map ex acc m =
      (if (acc.saved_count + 1) % 499 = 0 then
        { batch := [],
          commits := acc.commits ++ [acc.batch ++
            [⟨derive_id m,
              (resolve_media gid b map (derive_id m) m acc.gcs (base_message_doc m)).1⟩]],
          staged := acc.staged ++
            [⟨derive_id m,
              (resolve_media gid b map (derive_id m) m acc.gcs (base_message_doc m)).1⟩],
          saved_count := acc.saved_count + 1,
          gcs := (resolve_media gid b map (derive_id m) m acc.gcs (base_message_doc m)).2 }
       else
        { batch := acc.batch ++
            [⟨derive_id m,
              (resolve_media gid b map (derive_id m) m acc.gcs (base_message_doc m)).1⟩],
          commits := acc.commits,
          staged := acc.staged ++
            [⟨derive_id m,
              (resolve_media gid b map (derive_id m) m acc.gcs (base_message_doc m)).1⟩],
          saved_count := acc.saved_count + 1,
          gcs := (resolve_media gid b map (derive_id m) m acc.gcs (base_message_doc m)).2 }) := by
  simp only [save_message_step, if_neg h]

theorem save_fold_all_skip (gid b : String) (map : List (String × String))
    (ex : List String) (msgs : List Msg) (h : ∀ m ∈ msgs, derive_id m ∈ ex)
    (acc : SaveAcc) :
    msgs.foldl (save_message_step gid b map ex) acc = acc := by
  induction msgs generalizing acc with
  | nil => rfl
  | cons m rest ih =>
    rw [List.foldl_cons, save_step_skip gid b map ex acc m (h m (List.mem_cons_self m rest))]
    exact ih (fun x hx => h x (List.mem_cons_of_mem m hx)) acc

theorem save_fold_staged_ids (gid b : String) (map : List (String × String))
    (ex : List String) (msgs : List Msg) (acc : SaveAcc) :
    ((msgs.foldl (save_message_step gid b map ex) acc).staged).map StagedWrite.doc_id
      = acc.staged.map StagedWrite.doc_id
        ++ (msgs.filter (fun m => decide (derive_id m ∉ ex))).map derive_id := by
  induction msgs generalizing acc with
  | nil => simp
  | cons m rest ih =>
    by_cases h : derive_id m ∈ ex
    · rw [List.foldl_cons, save_step_skip gid b map ex acc m h, ih]
      simp [List.filter_cons, h]
    · rw [List.foldl_cons, save_step_new gid b map ex acc m h]
      by_cases hc : (acc.saved_count + 1) % 499 = 0
      · rw [if_pos hc, ih]
        simp [List.filter_cons, h]
      · rw [if_neg hc, ih]
        simp [List.filter_cons, h]

theorem save_fold_counts (gid b : String) (map : List (String × String))
    (ex : List String) (msgs : List Msg) :
    ∀ acc : SaveAcc, (∀ m ∈ msgs, derive_id m ∉ ex) →
      acc.batch.length = acc.saved_count % 499 →
      acc.commits.map List.length = List.replicate (acc.saved_count / 499) 499 →
      ((msgs.foldl (save_message_step gid b map ex) acc).batch.length
          = (msgs.foldl (save_message_step gid b map ex) acc).saved_count % 499
        ∧ (msgs.foldl (save_message_step gid b map ex) acc).commits.map List.length
          = List.replicate
              ((msgs.foldl (save_message_step gid b map ex) acc).saved_count / 499) 499
        ∧ (msgs.foldl (save_message_step gid b map ex) acc).saved_count
          = acc.saved_count + msgs.length) := by
  induction msgs with
  | nil =>
    intro acc _ h1 h2
    exact ⟨h1, h2, rfl⟩
  | cons m rest ih =>
    intro acc hnew h1 h2
    rw [List.foldl_cons, save_step_new gid b map ex acc m (hnew m (List.mem_cons_self m rest))]
    by_cases hc : (acc.saved_count + 1) % 499 = 0
    · rw [if_pos hc]
      have e1 : acc.saved_count % 499 = 498 := by omega
      have e2 : (acc.saved_count + 1) / 499 = acc.saved_count / 499 + 1 := by omega
      have h1' : (List.nil (α := StagedWrite)).length = (acc.saved_count + 1) % 499 := by
        simp [hc]
      have h2' : ((acc.commits ++ [acc.batch ++
          [StagedWrite.mk (derive_id m)
            (resolve_media gid b map (derive_id m) m acc.gcs (base_message_doc m)).1]]).map
            List.length)
          = List.replicate ((acc.saved_count + 1) / 499) 499 := by
        rw [List.map_append, h2, e2, List.replicate_succ']
        simp [h1, e1]
      obtain ⟨a1, a2, a3⟩ := ih
        { batch := [],
          commits := acc.commits ++ [acc.batch ++
            [StagedWrite.mk (derive_id m)
              (resolve_media gid b map (derive_id m) m acc.gcs (base_message_doc m)).1]],
          staged := acc.staged ++
            [StagedWrite.mk (derive_id m)
              (resolve_media gid b map (derive_id m) m acc.gcs (base_message_doc m)).1],
          saved_count := acc.saved_count + 1,
          gcs := (resolve_media gid b map (derive_id m) m acc.gcs (base_message_doc m)).2 }
        (fun x hx => hnew x (List.mem_cons_of_mem m hx)) h1' h2'
      refine ⟨a1, a2, ?_⟩
      rw [a3]
      simp
      omega
    · rw [if_neg hc]
      have h1' : (acc.batch ++
          [StagedWrite.mk (derive_id m)
            (resolve_media gid b map (derive_id m) m acc.gcs (base_message_doc m)).1]).length
          = (acc.saved_count + 1) % 499 := by
        simp [h1]
        omega
      have e2 : (acc.saved_count + 1) / 499 = acc.saved_count / 499 := by omega
      have h2' : acc.commits.map List.length
          = List.replicate ((acc.saved_count + 1) / 499) 499 := by
        rw [e2]
        exact h2
      obtain ⟨a1, a2, a3⟩ := ih
        { batch := acc.batch ++
            [StagedWrite.mk (derive_id m)
              (resolve_media gid b map (derive_id m) m acc.gcs (base_message_doc m)).1],
          commits := acc.commits,
          staged := acc.staged ++
            [StagedWrite.mk (derive_id m)
              (resolve_media gid b map (derive_id m) m acc.gcs (base_message_doc m)).1],
          saved_count := acc.saved_count + 1,
          gcs := (resolve_media gid b map (derive_id m) m acc.gcs (base_message_doc m)).2 }
        (fun x hx => hnew x (List.mem_cons_of_mem m hx)) h1' h2'
      refine ⟨a1, a2, ?_⟩
      rw [a3]
      simp
      omega

/-! ## C2: at-most-one staged write per message ID -/

/-- C2 counterexample: two input messages deriving the same message ID are
each staged as a separate write in a single ledger-writer call — the set of
seen IDs is loaded once and never extended during the loop. -/
theorem duplicate_messages_staged_twice :
    ¬ (((save_run "G" [sampleMsg, sampleMsg] [] "bucket" [] gcsIdle).staged.map
        StagedWrite.doc_id).Nodup) := by
  intro hn
  have e : (save_run "G" [sampleMsg, sampleMsg] [] "bucket" [] gcsIdle).staged.map
      StagedWrite.doc_id = [derive_id sampleMsg, derive_id sampleMsg] := rfl
  rw [e] at hn
  exact (List.nodup_cons.mp hn).1 (List.mem_singleton_self _)

/-- C2 amended: dedup happens only against the IDs loaded at the start of
the call, so when the input messages derive pairwise-distinct IDs, at most
one write is staged per distinct message ID. -/
theorem staged_ids_nodup_of_distinct_input_ids (g b : String) (msgs : List Msg)
    (map : List (String × String)) (ex : List String) (gcs : GcsState)
    (h : (msgs.map derive_id).Nodup) :
    ((save_run g msgs map b ex gcs).staged.map StagedWrite.doc_id).Nodup := by
  have hs : (save_run g msgs map b ex gcs).staged
      = (msgs.foldl (save_message_step (get_group_id g) b map ex) ⟨[], [], [], 0, gcs⟩).staged :=
    rfl
  rw [hs, save_fold_staged_ids]
  have hsub : List.Sublist
      ((msgs.filter (fun m => decide (derive_id m ∉ ex))).map derive_id)
      (msgs.map derive_id) :=
    List.Sublist.map derive_id (List.filter_sublist msgs)
  simpa using List.Nodup.sublist hsub h

/-- Witness for the amended C2 at a singleton input. -/
theorem staged_ids_nodup_witness :
    ((save_run "G" [sampleMsg] [] "bucket" [] gcsIdle).staged.map StagedWrite.doc_id).Nodup :=
  staged_ids_nodup_of_distinct_input_ids "G" "bucket" [sampleMsg] [] [] gcsIdle (by simp)

/-! ## C4: already-persisted messages are skipped entirely -/

/-- C4: when every input message's derived ID is already in the loaded set,
nothing is staged, nothing is committed, and the blob store is never
invoked (its state, including the call counter, is untouched) — re-running
on an unchanged export stages zero new writes. -/
theorem all_existing_messages_skipped (g b : String) (msgs : List Msg)
    (map : List (String × String)) (ex : List String) (gcs : GcsState)
    (h : ∀ m ∈ msgs, derive_id m ∈ ex) :
    (save_run g msgs map b ex gcs).staged = []
    ∧ (save_run g msgs map b ex gcs).commits = []
    ∧ (save_run g msgs map b ex gcs).gcs = gcs := by
  have hf := save_fold_all_skip (get_group_id g) b map ex msgs h ⟨[], [], [], 0, gcs⟩
  simp only [save_run]
  rw [hf]
  exact ⟨rfl, rfl, rfl⟩

/-- Witness for C4: one message whose ID is already persisted. -/
theorem all_existing_messages_skipped_witness :
    (save_run "G" [sampleMsg] [] "bucket" [derive_id sampleMsg] gcsIdle).staged = []
    ∧ (save_run "G" [sampleMsg] [] "bucket" [derive_id sampleMsg] gcsIdle).commits = []
    ∧ (save_run "G" [sampleMsg] [] "bucket" [derive_id sampleMsg] gcsIdle).gcs = gcsIdle :=
  all_existing_messages_skipped "G" "bucket" [sampleMsg] [] [derive_id sampleMsg] gcsIdle
    (by
      intro m hm
      rw [List.mem_singleton] at hm
      subst hm
      exact List.mem_singleton_self _)

/-! ## C6: batch boundary -/

/-- C6: staging 1001 new messages commits exactly three batches of sizes
499, 499 and 3: the batch is flushed whenever the running count of staged
writes reaches a multiple of 499, and the remainder is committed once at
the end. -/
theorem batch_commit_sizes_1001 (g b : String) (msgs : List Msg)
    (map : List (String × String)) (ex : List String) (gcs : GcsState)
    (hlen : msgs.length = 1001)
    (hnew : ∀ m ∈ msgs, derive_id m ∉ ex) :
    (save_run g msgs map b ex gcs).commits.map List.length = [499, 499, 3] := by
  obtain ⟨a1, a2, a3⟩ := save_fold_counts (get_group_id g) b map ex msgs
    ⟨[], [], [], 0, gcs⟩ hnew (by simp) (by simp)
  rw [hlen] at a3
  simp only [] at a3
  norm_num at a3
  simp only [save_run]
  rw [if_pos (by omega : (msgs.foldl
      (save_message_step (get_group_id g) b map ex) ⟨[], [], [], 0, gcs⟩).saved_count > 0)]
  rw [List.map_append, a2, a3]
  simp only [List.map_cons, List.map_nil]
  rw [a1, a3]
  decide

/-- Witness for C6: 1001 copies of a fresh message against an empty store. -/
theorem batch_commit_sizes_1001_witness :
    (List.replicate 1001 sampleMsg).length = 1001
    ∧ (save_run "G" (List.replicate 1001 sampleMsg) [] "bucket" [] gcsIdle).commits.map
        List.length = [499, 499, 3] :=
  ⟨by rw [List.length_replicate],
   batch_commit_sizes_1001 "G" "bucket" (List.replicate 1001 sampleMsg) [] [] gcsIdle
     (by rw [List.length_replicate]) (fun m _ => List.not_mem_nil _)⟩

/-! ## C7: messages whose media upload fails are still staged -/

/-- C7: a new message with media whose filename resolves in the map, but
whose upload returns no URI, is still staged — with
`media_analysis_status = "upload_failed"` and no media sub-document. -/
theorem upload_failure_message_still_staged (g b : String) (msg : Msg)
    (fn path : String) (map : List (String × String)) (ex : List String) (gcs : GcsState)
    (hnew : derive_id msg ∉ ex) (hm : msg.has_media = true)
    (hfn : msg.media_filename = some fn) (hpath : map.lookup fn = some path)
    (hfail : ∃ e, (upload_media_to_gcs gcs path b
        (some ("whatsapp/groups/" ++ get_group_id g ++ "/messages/" ++ derive_id msg ++ "/" ++ fn))).1
        = Except.error e) :
    (save_run g [msg] map b ex gcs).staged =
      [StagedWrite.mk (derive_id msg)
        { timestamp_utc := msg.timestamp_utc
          author := msg.author
          message_text := msg.message_text
          is_system_message := msg.is_system_message
          has_media := msg.has_media
          nlp_status := "pending"
          media_analysis_status := "upload_failed"
          media := none }] := by
  obtain ⟨e, he⟩ := hfail
  have hres : resolve_media (get_group_id g) b map (derive_id msg) msg gcs (base_message_doc msg)
      = ({ base_message_doc msg with media_analysis_status := "upload_failed" },
         (upload_media_to_gcs gcs path b
           (some ("whatsapp/groups/" ++ get_group_id g ++ "/messages/" ++ derive_id msg ++ "/" ++ fn))).2) := by
    simp only [resolve_media, hm, hfn, key_mem, hpath, Option.isSome_some, Bool.and_self,
      if_true, Option.getD_some, he]
  have hs : (save_run g [msg] map b ex gcs).staged
      = ([msg].foldl (save_message_step (get_group_id g) b map ex) ⟨[], [], [], 0, gcs⟩).staged :=
    rfl
  rw [hs, List.foldl_cons, List.foldl_nil, save_step_new _ _ _ _ _ _ hnew,
    if_neg (by decide : ¬ ((0 : Nat) + 1) % 499 = 0), hres]
  rfl

/-- Witness for C7: a media message against an unreachable blob backend. -/
theorem upload_failure_witness :
    (save_run "G" [mediaMsg]
        [("IMG-20240101-WA0001.jpg", "/tmp/x/IMG-20240101-WA0001.jpg")] "bucket" [] gcsDown).staged
      = [StagedWrite.mk (derive_id mediaMsg)
          { timestamp_utc := mediaMsg.timestamp_utc
            author := mediaMsg.author
            message_text := mediaMsg.message_text
            is_system_message := mediaMsg.is_system_message
            has_media := mediaMsg.has_media
            nlp_status := "pending"
            media_analysis_status := "upload_failed"
            media := none }] :=
  upload_failure_message_still_staged "G" "bucket" mediaMsg "IMG-20240101-WA0001.jpg"
    "/tmp/x/IMG-20240101-WA0001.jpg" _ [] gcsDown (List.not_mem_nil _) rfl rfl rfl
    ⟨UploadErr.storageError, rfl⟩

/-! ## C10: media filename absent from the map -/

/-- C10: a new message with media whose filename does not resolve in the
media files map triggers no upload at all (the blob-store state, including
its call counter, is unchanged) and is staged with
`media_analysis_status` still `"pending"` and no media sub-document —
`"upload_failed"` is never assigned on this path. -/
theorem unresolvable_media_stays_pending (g b : String) (msg : Msg)
    (map : List (String × String)) (ex : List String) (gcs : GcsState)
    (hnew : derive_id msg ∉ ex) (hm : msg.has_media = true)
    (habs : key_mem msg.media_filename map = false) :
    (save_run g [msg] map b ex gcs).staged =
      [StagedWrite.mk (derive_id msg)
        { timestamp_utc := msg.timestamp_utc
          author := msg.author
          message_text := msg.message_text
          is_system_message := msg.is_system_message
          has_media := msg.has_media
          nlp_status := "pending"
          media_analysis_status := "pending"
          media := none }]
    ∧ (save_run g [msg] map b ex gcs).gcs = gcs := by
  have hres : resolve_media (get_group_id g) b map (derive_id msg) msg gcs (base_message_doc msg)
      = (base_message_doc msg, gcs) := by
    simp only [resolve_media, habs, Bool.and_false]
    rw [if_neg (by simp : ¬ (false = true))]
  constructor
  · have hs : (save_run g [msg] map b ex gcs).staged
        = ([msg].foldl (save_message_step (get_group_id g) b map ex) ⟨[], [], [], 0, gcs⟩).staged :=
      rfl
    rw [hs, List.foldl_cons, List.foldl_nil, save_step_new _ _ _ _ _ _ hnew,
      if_neg (by decide : ¬ ((0 : Nat) + 1) % 499 = 0), hres]
    simp [base_message_doc, hm]
  · have hs : (save_run g [msg] map b ex gcs).gcs
        = ([msg].foldl (save_message_step (get_group_id g) b map ex) ⟨[], [], [], 0, gcs⟩).gcs :=
      rfl
    rw [hs, List.foldl_cons, List.foldl_nil, save_step_new _ _ _ _ _ _ hnew,
      if_neg (by decide : ¬ ((0 : Nat) + 1) % 499 = 0), hres]

/-- Witness for C10: a media message whose filename is not in the map. -/
theorem unresolvable_media_witness :
    (save_run "G" [mediaMsg] [] "bucket" [] gcsIdle).staged
      = [StagedWrite.mk (derive_id mediaMsg)
          { timestamp_utc := mediaMsg.timestamp_utc
            author := mediaMsg.author
            message_text := mediaMsg.message_text
            is_system_message := mediaMsg.is_system_message
            has_media := mediaMsg.has_media
            nlp_status := "pending"
            media_analysis_status := "pending"
            media := none }]
    ∧ (save_run "G" [mediaMsg] [] "bucket" [] gcsIdle).gcs = gcsIdle :=
  unresolvable_media_stays_pending "G" "bucket" mediaMsg [] [] gcsIdle
    (List.not_mem_nil _) rfl rfl

/-! ## C8: idempotent uploads -/

/-- C8: with a reachable backend and the file present, the first upload call
succeeds with a full triple, and a second call with the same file and key
policy returns the very same result while performing no further physical
transfer and adding no blob: only the invocation counter moves. -/
theorem second_upload_no_transfer (st : GcsState) (p b : String) (d : Option String)
    (content : List Nat) (hc : st.clientOk = true) (ha : st.apiFails = false)
    (hf : st.localFiles.lookup p = some content) :
    (∃ u hsh mt, (upload_media_to_gcs st p b d).1 = Except.ok (u, hsh, mt))
    ∧ (upload_media_to_gcs (upload_media_to_gcs st p b d).2 p b d).1
        = (upload_media_to_gcs st p b d).1
    ∧ (upload_media_to_gcs (upload_media_to_gcs st p b d).2 p b d).2.blobs
        = (upload_media_to_gcs st p b d).2.blobs
    ∧ (upload_media_to_gcs (upload_media_to_gcs st p b d).2 p b d).2.transfers
        = (upload_media_to_gcs st p b d).2.transfers := by
  obtain ⟨co, af, lf, bl, ca, tr⟩ := st
  simp only at hc ha hf
  subst hc
  subst ha
  by_cases hmem : (b, (match d with
      | some dd => dd
      | none => calculate_file_hash content ++ splitextExt (basename p))) ∈ bl
  · refine ⟨⟨"gs://" ++ b ++ "/" ++ (match d with
        | some dd => dd
        | none => calculate_file_hash content ++ splitextExt (basename p)),
      calculate_file_hash content, guess_media_type (basename p), ?_⟩, ?_, ?_, ?_⟩
    all_goals simp [upload_media_to_gcs, hf, hmem]
    all_goals cases d <;> rfl
  · refine ⟨⟨"gs://" ++ b ++ "/" ++ (match d with
        | some dd => dd
        | none => calculate_file_hash content ++ splitextExt (basename p)),
      calculate_file_hash content, guess_media_type (basename p), ?_⟩, ?_, ?_, ?_⟩
    all_goals simp [upload_media_to_gcs, hf, hmem]
    all_goals cases d <;> rfl

/-- Witness for C8 at a concrete one-file store. -/
theorem second_upload_no_transfer_witness :
    (∃ u hsh mt,
      (upload_media_to_gcs ⟨true, false, [("pic.jpg", [1, 2, 3])], [], 0, 0⟩
          "pic.jpg" "bkt" none).1 = Except.ok (u, hsh, mt))
    ∧ (upload_media_to_gcs
        (upload_media_to_gcs ⟨true, false, [("pic.jpg", [1, 2, 3])], [], 0, 0⟩
          "pic.jpg" "bkt" none).2 "pic.jpg" "bkt" none).1
      = (upload_media_to_gcs ⟨true, false, [("pic.jpg", [1, 2, 3])], [], 0, 0⟩
          "pic.jpg" "bkt" none).1
    ∧ (upload_media_to_gcs
        (upload_media_to_gcs ⟨true, false, [("pic.jpg", [1, 2, 3])], [], 0, 0⟩
          "pic.jpg" "bkt" none).2 "pic.jpg" "bkt" none).2.blobs
      = (upload_media_to_gcs ⟨true, false, [("pic.jpg", [1, 2, 3])], [], 0, 0⟩
          "pic.jpg" "bkt" none).2.blobs
    ∧ (upload_media_to_gcs
        (upload_media_to_gcs ⟨true, false, [("pic.jpg", [1, 2, 3])], [], 0, 0⟩
          "pic.jpg" "bkt" none).2 "pic.jpg" "bkt" none).2.transfers
      = (upload_media_to_gcs ⟨true, false, [("pic.jpg", [1, 2, 3])], [], 0, 0⟩
          "pic.jpg" "bkt" none).2.transfers :=
  second_upload_no_transfer ⟨true, false, [("pic.jpg", [1, 2, 3])], [], 0, 0⟩
    "pic.jpg" "bkt" none [1, 2, 3] rfl rfl rfl
